import Mathlib

/-!
Shallow embedding of the connection / event-dispatch layer of the `lava`
Lavalink client (`src/lava/client.py`), together with theorems checking the
natural-language specification against it.

Python-side effects are made explicit:
  * exceptions become `Except PyError`;
  * mutation of the `Lavalink` object becomes explicit state passing
    (a method that mutates returns the updated `Lavalink` record);
  * `asyncio.create_task(listener(event))` is recorded as a scheduled task,
    i.e. a `(listener, event)` pair appended to the list of spawned tasks,
    in the order the Python loop spawns them;
  * the HTTP layer is a function `server : String → HttpResponse` mapping
    the requested URL to the (already JSON-decoded) response.

Listeners/callbacks are opaque values of a type parameter `α`.
-/

namespace Lava

/-- JSON values, as produced by `json.loads` / `res.json()`.  Object fields
are kept in insertion order, as Python dicts do. -/
inductive Json where
  | null : Json
  | bool (b : Bool) : Json
  | num (n : Int) : Json
  | str (s : String) : Json
  | arr (xs : List Json) : Json
  | obj (fields : List (String × Json)) : Json

/-- `errors.LavalinkError`: the `errors` module is not under `src/`.
Modelled from the spec: the error factory interface is
`LavalinkError.fromPayload(rawObject) -> Error`, an error carrying the
server's decoded payload. -/
structure LavalinkError where
  payload : Json

/-- Modelled from the spec: `LavalinkError.fromPayload` wraps the decoded
response payload into a domain error. -/
def LavalinkError.from_payload (data : Json) : LavalinkError :=
  ⟨data⟩

/-- The Python exceptions the embedded code can raise.
`clientResponseError` is aiohttp's `ClientResponseError`, raised by
`res.raise_for_status()` for every non-success status; it carries HTTP
status information but NOT the decoded response payload. -/
inductive PyError where
  | runtimeError (msg : String) : PyError
  | keyError (key : String) : PyError
  | typeError (msg : String) : PyError
  | lavalinkError (e : LavalinkError) : PyError
  | clientResponseError : PyError

/-- Association-list lookup with Python-dict semantics (first match; Python
dicts have unique keys, so first match is the only match). -/
def assocLookup (fields : List (String × Json)) (key : String) : Option Json :=
  match fields with
  | [] => none
  | (k, v) :: rest => if k = key then some v else assocLookup rest key

/-- Python subscript `data[key]` on a decoded JSON value: on an object it
returns the value or raises `KeyError`; on anything else it raises
`TypeError` (string keys index only dicts among JSON-decoded values). -/
def Json.getItem : Json → String → Except PyError Json
  | Json.obj fields, key =>
      match assocLookup fields key with
      | some v => Except.ok v
      | none => Except.error (PyError.keyError key)
  | _, _ => Except.error (PyError.typeError "value is not subscriptable by string")

/-- Python `==` between a decoded JSON value and a string literal: true
exactly when the value is that string (a dict, list, number, bool or None
never compares equal to a `str`). -/
def Json.eqStr : Json → String → Bool
  | Json.str s, t => s = t
  | _, _ => false

/-- Python iteration `for p in data` over a decoded JSON value: a list yields
its elements, a dict yields its keys (as strings), a string yields its
one-character substrings; other values raise `TypeError`. -/
def pyIter : Json → Except PyError (List Json)
  | Json.arr xs => Except.ok xs
  | Json.obj fields => Except.ok (fields.map (fun f => Json.str f.1))
  | Json.str s => Except.ok (s.toList.map (fun ch => Json.str (String.mk [ch])))
  | _ => Except.error (PyError.typeError "value is not iterable")

/-- The Python annotation `port: int | str`. -/
inductive IntOrStr where
  | int (n : Int) : IntOrStr
  | str (s : String) : IntOrStr
deriving Repr, DecidableEq

/-- Python `str(port)` / f-string interpolation of the port. -/
def IntOrStr.toStr : IntOrStr → String
  | IntOrStr.int n => toString n
  | IntOrStr.str s => s

/-- The `aiohttp.ClientSession`, reduced to what the embedded code observes
of it: the fixed header set it was created with. -/
structure Session where
  headers : List (String × String)
deriving Repr, DecidableEq

/-- The WebSocket handle, reduced to the URL it was opened on. -/
structure Websocket where
  url : String
deriving Repr, DecidableEq

/-- The event classes of the `events` module (not under `src/`).
Modelled from the spec: one variant per wire message kind. -/
inductive EventType where
  | ReadyEvent : EventType
  | PlayerUpdateEvent : EventType
  | StatsEvent : EventType
  | TrackStartEvent : EventType
  | TrackEndEvent : EventType
  | TrackExceptionEvent : EventType
  | TrackStuckEvent : EventType
  | WebSocketClosedEvent : EventType
deriving Repr, DecidableEq

/-- Modelled from the spec: an event is an immutable tagged value built from
a decoded JSON object by the variant's `fromPayload` constructor; `type` is
the Python `type(event)` used as registry key. -/
structure Event where
  type : EventType
  payload : Json

/-- Modelled from the spec: `Event.fromPayload(object) -> Event`, the tagged
payload parser of the variant `t`. -/
def Event.from_payload (t : EventType) (data : Json) : Event :=
  ⟨t, data⟩

/-- The `Lavalink` client object.  `α` is the type of listener callbacks
(opaque to the client).  Fields mirror `Lavalink.__init__`: the five
session fields start as `None` and `event_listeners` as `{}`; the registry
is a Python dict from event class to list of callbacks, kept in insertion
order. -/
structure Lavalink (α : Type) where
  _is_ssl : Option Bool
  _host : Option String
  _port : Option IntOrStr
  _session : Option Session
  _websocket : Option Websocket
  event_listeners : List (EventType × List α)

/-- `Lavalink.__init__`: every session field unset, empty registry. -/
def Lavalink.init {α : Type} : Lavalink α :=
  { _is_ssl := none
    _host := none
    _port := none
    _session := none
    _websocket := none
    event_listeners := [] }

/-- Registry lookup, i.e. `self.event_listeners.get(type(event))`. -/
def dictGet {α : Type} (d : List (EventType × List α)) (k : EventType) :
    Option (List α) :=
  match d with
  | [] => none
  | (k2, v) :: rest => if k2 = k then some v else dictGet rest k

/-- The `is_ssl` property: raises `RuntimeError` while `_is_ssl is None`. -/
def Lavalink.is_ssl {α : Type} (c : Lavalink α) : Except PyError Bool :=
  match c._is_ssl with
  | none => Except.error (PyError.runtimeError "Lavalink.connect() was not called.")
  | some b => Except.ok b

/-- The `host` property: raises `RuntimeError` while `_host is None`. -/
def Lavalink.host {α : Type} (c : Lavalink α) : Except PyError String :=
  match c._host with
  | none => Except.error (PyError.runtimeError "Lavalink.connect() was not called.")
  | some h => Except.ok h

/-- The `port` property: raises `RuntimeError` while `_port is None`. -/
def Lavalink.port {α : Type} (c : Lavalink α) : Except PyError IntOrStr :=
  match c._port with
  | none => Except.error (PyError.runtimeError "Lavalink.connect() was not called.")
  | some p => Except.ok p

/-- The `session` property: `if not self._session` — `None` is falsy and a
`ClientSession` object is always truthy, so it raises exactly while the
field is unset. -/
def Lavalink.session {α : Type} (c : Lavalink α) : Except PyError Session :=
  match c._session with
  | none => Except.error (PyError.runtimeError "Lavalink.connect() was not called.")
  | some s => Except.ok s

/-- The `websocket` property: same falsiness test as `session`. -/
def Lavalink.websocket {α : Type} (c : Lavalink α) : Except PyError Websocket :=
  match c._websocket with
  | none => Except.error (PyError.runtimeError "Lavalink.connect() was not called.")
  | some w => Except.ok w

/-- `Lavalink.connect`: stores the connection parameters, builds the header
dict (`Resume-Key` added only under Python truthiness of `resume_key`),
creates the session with those headers and opens the WebSocket on
`{wss|ws}://{host}:{port}/v3/websocket`. -/
def connect {α : Type} (c : Lavalink α) (host : String) (port : IntOrStr)
    (password : String) (bot_id : Int) (resume_key : Option String)
    (is_ssl : Bool) : Lavalink α :=
  let headers :=
    [("Authorization", password),
     ("User-Id", toString bot_id),
     ("Client-Name", "lava.py/0.0.0")]
  let headers :=
    match resume_key with
    | some k => if !k.isEmpty then headers ++ [("Resume-Key", k)] else headers
    | none => headers
  { c with
    _is_ssl := some is_ssl
    _host := some host
    _port := some port
    _session := some ⟨headers⟩
    _websocket := some
      ⟨(if is_ssl then "wss" else "ws") ++ "://" ++ host ++ ":"
        ++ port.toStr ++ "/v3/websocket"⟩ }

/-- `Lavalink.dispatch`: `if listeners := self.event_listeners.get(type(event))`
(both a missing key and an empty list are falsy), then one
`asyncio.create_task(listener(event))` per listener, in list order.  The
returned pair is (client state after the call, tasks spawned in order). -/
def dispatch {α : Type} (c : Lavalink α) (event : Event) :
    Lavalink α × List (α × Event) :=
  match dictGet c.event_listeners event.type with
  | some listeners =>
      if listeners.isEmpty then (c, [])
      else (c, listeners.map (fun listener => (listener, event)))
  | none => (c, [])

/-- The registration function returned by `Lavalink.listen(event_type)`:
appends the callback to the list for the key, creating the list (as a new
last dict entry) if the key is absent. -/
def listen {α : Type} (c : Lavalink α) (event_type : EventType) (callback : α) :
    Lavalink α :=
  if (dictGet c.event_listeners event_type).isSome then
    { c with
      event_listeners :=
        c.event_listeners.map (fun kv =>
          if kv.1 = event_type then (kv.1, kv.2 ++ [callback]) else kv) }
  else
    { c with event_listeners := c.event_listeners ++ [(event_type, [callback])] }

/-- The per-frame branch of `_start_listening`: classify the decoded frame
by `op` (and, for `"event"`, by `type`) and build the matching event; an
unrecognized tag builds nothing.  Unguarded `data["op"]` / `data["type"]`
subscripts propagate as errors. -/
def handle_frame (data : Json) : Except PyError (Option Event) := do
  let op ← data.getItem "op"
  if op.eqStr "ready" then
    return some (Event.from_payload EventType.ReadyEvent data)
  else if op.eqStr "playerUpdate" then
    return some (Event.from_payload EventType.PlayerUpdateEvent data)
  else if op.eqStr "stats" then
    return some (Event.from_payload EventType.StatsEvent data)
  else if op.eqStr "event" then do
    let ty ← data.getItem "type"
    if ty.eqStr "TrackStartEvent" then
      return some (Event.from_payload EventType.TrackStartEvent data)
    else if ty.eqStr "TrackEndEvent" then
      return some (Event.from_payload EventType.TrackEndEvent data)
    else if ty.eqStr "TrackExceptionEvent" then
      return some (Event.from_payload EventType.TrackExceptionEvent data)
    else if ty.eqStr "TrackStuckEvent" then
      return some (Event.from_payload EventType.TrackStuckEvent data)
    else if ty.eqStr "WebSocketClosedEvent" then
      return some (Event.from_payload EventType.WebSocketClosedEvent data)
    else
      return none
  else
    return none

/-- One iteration of the `async for msg in ws` loop: classify the frame and
dispatch the event it builds, if any. -/
def process_frame {α : Type} (c : Lavalink α) (data : Json) :
    Except PyError (Lavalink α × List (α × Event)) := do
  match ← handle_frame data with
  | some e => return dispatch c e
  | none => return (c, [])

/-- The dispatch loop `_start_listening` over a finite prefix of the frame
stream: frames are processed strictly in arrival order; an uncaught
exception terminates the loop, leaving later frames unprocessed. -/
def run_loop {α : Type} (c : Lavalink α) :
    List Json → Except PyError (Lavalink α × List (α × Event))
  | [] => Except.ok (c, [])
  | data :: rest => do
      let r ← process_frame c data
      let r2 ← run_loop r.1 rest
      return (r2.1, r.2 ++ r2.2)

/-- An HTTP response as the embedded code observes it: `res.ok` (status in
2xx/3xx success range) and the JSON-decoded body `await res.json()`. -/
structure HttpResponse where
  ok : Bool
  body : Json

/-- The URL built inside `Lavalink.get`'s f-string, reading the `is_ssl`,
`host` and `port` properties (each can raise): note the source uses
`'http' if self.is_ssl else 'https'` and appends `&trace=true`. -/
def get_url {α : Type} (c : Lavalink α) (path : String) :
    Except PyError String := do
  let ssl ← c.is_ssl
  let h ← c.host
  let p ← c.port
  return (if ssl then "http" else "https") ++ "://" ++ h ++ ":"
    ++ p.toStr ++ "/v3/" ++ path ++ "&trace=true"

/-- `Lavalink.get(path)`: reads `self.session` (can raise), issues the GET
on the built URL against `server` and decodes the body.  On a non-success
status the source executes
`raise errors.LavalinkError.from_payload(data) from res.raise_for_status()`:
Python evaluates the exception expression first (`from_payload` builds the
domain error), then the cause expression — and `res.raise_for_status()`
itself raises `ClientResponseError` exactly when `not res.ok` (both test
status >= 400), so that exception propagates and the freshly built
`LavalinkError` is discarded, never raised.  On success the decoded body is
returned. -/
def get {α : Type} (c : Lavalink α) (path : String)
    (server : String → HttpResponse) : Except PyError Json := do
  let _s ← c.session
  let url ← get_url c path
  let res := server url
  let data := res.body
  if !res.ok then
    let _discarded := LavalinkError.from_payload data
    Except.error PyError.clientResponseError
  else
    return data

/-- `models.Player`: the `models` module is not under `src/`.
Modelled from the spec: a value object decoded from one raw player object,
with no lifecycle beyond construction. -/
structure Player where
  payload : Json

/-- Modelled from the spec: `Player.fromPayload(rawObject) -> Player`, a
decoder taking a raw player *object*; decoding a non-object element fails. -/
def Player.from_payload : Json → Except PyError Player
  | Json.obj fields => Except.ok ⟨Json.obj fields⟩
  | _ => Except.error (PyError.typeError "cannot decode Player from non-object")

/-- The list comprehension `[Player.from_payload(p) for p in items]`:
decode left to right, aborting on the first failure (no partial results). -/
def decode_players : List Json → Except PyError (List Player)
  | [] => Except.ok []
  | x :: rest => do
      let p ← Player.from_payload x
      let ps ← decode_players rest
      return p :: ps

/-- `Lavalink.get_players(session_id)`: the list comprehension
`[Player.from_payload(p) for p in await self.get(f"sessions/{session_id}/players")]`
— iterate the returned JSON value itself and decode each iterated element. -/
def get_players {α : Type} (c : Lavalink α) (session_id : String)
    (server : String → HttpResponse) : Except PyError (List Player) := do
  let data ← get c ("sessions/" ++ session_id ++ "/players") server
  let items ← pyIter data
  decode_players items

/-! ## Helper lemmas -/

@[simp]
theorem except_bind_ok {ε β γ : Type} (a : β) (f : β → Except ε γ) :
    (Except.ok a >>= f : Except ε γ) = f a := rfl

@[simp]
theorem except_bind_error {ε β γ : Type} (e : ε) (f : β → Except ε γ) :
    ((Except.error e : Except ε β) >>= f) = Except.error e := rfl

@[simp]
theorem except_map_ok {ε β γ : Type} (g : β → γ) (a : β) :
    (g <$> (Except.ok a : Except ε β)) = Except.ok (g a) := rfl

@[simp]
theorem except_map_error {ε β γ : Type} (g : β → γ) (e : ε) :
    (g <$> (Except.error e : Except ε β) : Except ε γ) = Except.error e := rfl

/-- Python `value == "literal"` is true exactly on that string value. -/
theorem Json.eqStr_iff (j : Json) (s : String) :
    j.eqStr s = true ↔ j = Json.str s := by
  cases j <;> simp [Json.eqStr]

/-! ## Claims -/

/-- Claim C5: each of the five accessors `is_ssl`, `host`, `port`, `session`,
`websocket` raises the distinguished "not connected" `RuntimeError` while its
backing field is unset (i.e. before `connect()` has run), rather than
returning a null or default value. -/
theorem accessors_raise_before_connect {α : Type} (c : Lavalink α) :
    (c._is_ssl = none →
      c.is_ssl = Except.error (PyError.runtimeError "Lavalink.connect() was not called."))
    ∧ (c._host = none →
      c.host = Except.error (PyError.runtimeError "Lavalink.connect() was not called."))
    ∧ (c._port = none →
      c.port = Except.error (PyError.runtimeError "Lavalink.connect() was not called."))
    ∧ (c._session = none →
      c.session = Except.error (PyError.runtimeError "Lavalink.connect() was not called."))
    ∧ (c._websocket = none →
      c.websocket = Except.error (PyError.runtimeError "Lavalink.connect() was not called.")) := by
  refine ⟨fun h => ?_, fun h => ?_, fun h => ?_, fun h => ?_, fun h => ?_⟩ <;>
    simp [Lavalink.is_ssl, Lavalink.host, Lavalink.port, Lavalink.session,
      Lavalink.websocket, h]

/-- Witness for C5: on the freshly initialized client all five accessors
raise the "not connected" error. -/
theorem accessors_raise_before_connect_witness :
    (Lavalink.init : Lavalink Nat).is_ssl
      = Except.error (PyError.runtimeError "Lavalink.connect() was not called.")
    ∧ (Lavalink.init : Lavalink Nat).host
      = Except.error (PyError.runtimeError "Lavalink.connect() was not called.")
    ∧ (Lavalink.init : Lavalink Nat).port
      = Except.error (PyError.runtimeError "Lavalink.connect() was not called.")
    ∧ (Lavalink.init : Lavalink Nat).session
      = Except.error (PyError.runtimeError "Lavalink.connect() was not called.")
    ∧ (Lavalink.init : Lavalink Nat).websocket
      = Except.error (PyError.runtimeError "Lavalink.connect() was not called.") :=
  ⟨(accessors_raise_before_connect Lavalink.init).1 rfl,
   (accessors_raise_before_connect Lavalink.init).2.1 rfl,
   (accessors_raise_before_connect Lavalink.init).2.2.1 rfl,
   (accessors_raise_before_connect Lavalink.init).2.2.2.1 rfl,
   (accessors_raise_before_connect Lavalink.init).2.2.2.2 rfl⟩

/-- Claim C2: `connect` opens the WebSocket on
`{scheme}://{host}:{port}/v3/websocket` with scheme `wss` iff `is_ssl`; the
session headers are exactly `Authorization`, `User-Id`, `Client-Name`, plus
`Resume-Key` (with the supplied key) only when a resume key was supplied;
and in particular `connect(host="h", port=80, is_ssl=false)` yields the URL
`ws://h:80/v3/websocket`. -/
theorem connect_ws_url_and_headers {α : Type} (c : Lavalink α)
    (host password : String) (port : IntOrStr) (bot_id : Int)
    (resume_key : Option String) (is_ssl : Bool) :
    ((connect c host port password bot_id resume_key is_ssl)._websocket =
      some ⟨(if is_ssl then "wss" else "ws") ++ "://" ++ host ++ ":"
        ++ port.toStr ++ "/v3/websocket"⟩)
    ∧ (∃ extra,
        (connect c host port password bot_id resume_key is_ssl)._session =
          some ⟨[("Authorization", password), ("User-Id", toString bot_id),
                 ("Client-Name", "lava.py/0.0.0")] ++ extra⟩
        ∧ (extra = [] ∨ ∃ k, resume_key = some k ∧ extra = [("Resume-Key", k)]))
    ∧ (connect (Lavalink.init : Lavalink Nat) "h" (IntOrStr.int 80) "p" 1
        none false)._websocket = some ⟨"ws://h:80/v3/websocket"⟩ := by
  refine ⟨by simp [connect], ?_, rfl⟩
  cases resume_key with
  | none => exact ⟨[], by simp [connect], Or.inl rfl⟩
  | some k =>
    by_cases hk : k.isEmpty
    · exact ⟨[], by simp [connect, hk], Or.inl rfl⟩
    · exact ⟨[("Resume-Key", k)], by simp [connect, hk], Or.inr ⟨k, rfl, rfl⟩⟩

/-- Claim C9: the `Resume-Key` header is present iff the `resume_key`
argument is Python-truthy; in particular `connect` with `resume_key=""`
produces exactly the same client state as `connect` with `resume_key=None`. -/
theorem resume_key_header_iff_truthy {α : Type} (c : Lavalink α)
    (host password : String) (port : IntOrStr) (bot_id : Int)
    (resume_key : Option String) (is_ssl : Bool) :
    ((∃ s, (connect c host port password bot_id resume_key is_ssl)._session = some s
        ∧ "Resume-Key" ∈ s.headers.map Prod.fst)
      ↔ ∃ k, resume_key = some k ∧ k ≠ "")
    ∧ connect c host port password bot_id (some "") is_ssl
        = connect c host port password bot_id none is_ssl := by
  constructor
  · cases resume_key with
    | none =>
      simp [connect]
    | some k =>
      by_cases hk : k.isEmpty
      · rw [String.isEmpty_iff] at hk
        subst hk
        have he : "".isEmpty = true := rfl
        simp [connect, he]
      · have hk2 : k ≠ "" := by
          intro hh
          exact hk (hh ▸ rfl)
        simp [connect, hk, hk2]
  · rfl

/-- `dispatch` never changes the client state (helper). -/
theorem dispatch_state {α : Type} (c : Lavalink α) (event : Event) :
    (dispatch c event).1 = c := by
  unfold dispatch
  cases dictGet c.event_listeners event.type with
  | none => rfl
  | some listeners => by_cases h : listeners.isEmpty <;> simp [h]

/-- `process_frame` never changes the client state (helper). -/
theorem process_frame_state {α : Type} (c : Lavalink α) (data : Json)
    (r : Lavalink α × List (α × Event)) (h : process_frame c data = Except.ok r) :
    r.1 = c := by
  unfold process_frame at h
  cases hf : handle_frame data with
  | error e => rw [hf] at h; simp at h
  | ok o =>
    rw [hf] at h
    cases o with
    | none =>
      simp [pure, Except.pure] at h
      rw [← h]
    | some e =>
      simp [pure, Except.pure] at h
      rw [← h]
      exact dispatch_state c e

/-- `run_loop` never changes the client state (helper). -/
theorem run_loop_state {α : Type} (frames : List Json) (c : Lavalink α)
    (r : Lavalink α × List (α × Event)) (h : run_loop c frames = Except.ok r) :
    r.1 = c := by
  induction frames generalizing c r with
  | nil =>
    unfold run_loop at h
    simp [pure, Except.pure] at h
    rw [← h]
  | cons data rest ih =>
    unfold run_loop at h
    cases h1 : process_frame c data with
    | error e => rw [h1] at h; simp at h
    | ok r1 =>
      rw [h1] at h
      simp only [except_bind_ok] at h
      cases h2 : run_loop r1.1 rest with
      | error e => rw [h2] at h; simp at h
      | ok r2 =>
        rw [h2] at h
        simp [pure, Except.pure] at h
        have e1 : r1.1 = c := process_frame_state c data r1 h1
        have e2 : r2.1 = r1.1 := ih r1.1 r2 h2
        rw [← h]
        simp [e2, e1]

/-- Claim C3: `dispatch(event)` schedules each callback registered for
`type(event)` exactly once, as separate spawned tasks in registration order,
without awaiting any of them (the spawned-task list is exactly the listener
list, each paired with the event); with zero callbacks registered for the
type, `dispatch` is a silent no-op. -/
theorem dispatch_schedules_each_listener_once {α : Type} (c : Lavalink α)
    (event : Event) :
    (∀ listeners, dictGet c.event_listeners event.type = some listeners →
        (dispatch c event).2 = listeners.map (fun listener => (listener, event)))
    ∧ (dictGet c.event_listeners event.type = none → dispatch c event = (c, []))
    ∧ (dictGet c.event_listeners event.type = some [] → dispatch c event = (c, [])) := by
  refine ⟨fun listeners h => ?_, fun h => ?_, fun h => ?_⟩
  · cases listeners with
    | nil => simp [dispatch, h]
    | cons a as => simp [dispatch, h]
  · simp [dispatch, h]
  · simp [dispatch, h]

/-- Witness for C3: two listeners registered for `ReadyEvent` are both
scheduled exactly once and in registration order; a type with no registered
listeners dispatches to no tasks. -/
theorem dispatch_schedules_each_listener_once_witness :
    (dispatch
        (listen (listen (Lavalink.init : Lavalink Nat) EventType.ReadyEvent 7)
          EventType.ReadyEvent 9)
        (Event.from_payload EventType.ReadyEvent Json.null)).2
      = [(7, Event.from_payload EventType.ReadyEvent Json.null),
         (9, Event.from_payload EventType.ReadyEvent Json.null)]
    ∧ dispatch (Lavalink.init : Lavalink Nat)
        (Event.from_payload EventType.StatsEvent Json.null)
      = (Lavalink.init, []) :=
  ⟨(dispatch_schedules_each_listener_once
      (listen (listen (Lavalink.init : Lavalink Nat) EventType.ReadyEvent 7)
        EventType.ReadyEvent 9)
      (Event.from_payload EventType.ReadyEvent Json.null)).1 [7, 9] rfl,
   (dispatch_schedules_each_listener_once (Lavalink.init : Lavalink Nat)
      (Event.from_payload EventType.StatsEvent Json.null)).2.1 rfl⟩

/-- Claim C10: the listener registry is mutated only by the registration
function returned from `listen()`: `dispatch` leaves the whole client state
(in particular `event_listeners`) unchanged, every frame (and every finite
frame sequence) processed by the dispatch loop leaves the registry
unchanged, and `connect` does not touch it either.  Together with the fact
that `get` / `get_players` return no client state at all, `listen` is the
only embedded operation whose result can differ from its input in
`event_listeners`. -/
theorem registry_unchanged_by_dispatching {α : Type} (c : Lavalink α)
    (event : Event) (data : Json) (frames : List Json) :
    ((dispatch c event).1.event_listeners = c.event_listeners)
    ∧ (∀ r, process_frame c data = Except.ok r →
        r.1.event_listeners = c.event_listeners)
    ∧ (∀ r, run_loop c frames = Except.ok r →
        r.1.event_listeners = c.event_listeners)
    ∧ (∀ host password port bot_id resume_key is_ssl,
        (connect c host port password bot_id resume_key is_ssl).event_listeners
          = c.event_listeners) := by
  refine ⟨by rw [dispatch_state], fun r h => ?_, fun r h => ?_,
    fun host password port bot_id resume_key is_ssl => ?_⟩
  · rw [process_frame_state c data r h]
  · rw [run_loop_state frames c r h]
  · cases resume_key with
    | none => simp [connect]
    | some k => by_cases hk : k.isEmpty <;> simp [connect, hk]

/-- Witness for C10: a client with one `ReadyEvent` listener keeps its
registry across a processed `ready` frame and across a one-frame loop run. -/
theorem registry_unchanged_by_dispatching_witness :
    ((listen (Lavalink.init : Lavalink Nat) EventType.ReadyEvent 7,
        [((7 : Nat),
          Event.from_payload EventType.ReadyEvent
            (Json.obj [("op", Json.str "ready")]))]).1.event_listeners
      = (listen (Lavalink.init : Lavalink Nat) EventType.ReadyEvent 7).event_listeners)
    ∧ ((listen (Lavalink.init : Lavalink Nat) EventType.ReadyEvent 7,
        ([] : List (Nat × Event))).1.event_listeners
      = (listen (Lavalink.init : Lavalink Nat) EventType.ReadyEvent 7).event_listeners) :=
  ⟨(registry_unchanged_by_dispatching
      (listen (Lavalink.init : Lavalink Nat) EventType.ReadyEvent 7)
      (Event.from_payload EventType.ReadyEvent Json.null)
      (Json.obj [("op", Json.str "ready")]) []).2.1 _ rfl,
   (registry_unchanged_by_dispatching
      (listen (Lavalink.init : Lavalink Nat) EventType.ReadyEvent 7)
      (Event.from_payload EventType.ReadyEvent Json.null)
      (Json.obj [("op", Json.str "ready")])
      [Json.obj [("op", Json.str "stats")]]).2.2.1 _ rfl⟩

/-- Claim C4: a frame with `op == "event"` whose `type` field is present but
not one of the five recognized sub-event names builds no event and triggers
zero listener invocations without crashing the loop, and a frame whose `op`
is none of `ready`/`playerUpdate`/`stats`/`event` is likewise silently
dropped; in either case the loop simply continues with the next frame. -/
theorem unknown_tags_silently_dropped {α : Type} (c : Lavalink α) (data : Json) :
    (∀ ty, data.getItem "op" = Except.ok (Json.str "event") →
        data.getItem "type" = Except.ok ty →
        ty ≠ Json.str "TrackStartEvent" → ty ≠ Json.str "TrackEndEvent" →
        ty ≠ Json.str "TrackExceptionEvent" → ty ≠ Json.str "TrackStuckEvent" →
        ty ≠ Json.str "WebSocketClosedEvent" →
        process_frame c data = Except.ok (c, []))
    ∧ (∀ op, data.getItem "op" = Except.ok op →
        op ≠ Json.str "ready" → op ≠ Json.str "playerUpdate" →
        op ≠ Json.str "stats" → op ≠ Json.str "event" →
        process_frame c data = Except.ok (c, []))
    ∧ (∀ rest, process_frame c data = Except.ok (c, []) →
        run_loop c (data :: rest) = run_loop c rest) := by
  have hf : ∀ (j : Json) (s : String), j ≠ Json.str s → j.eqStr s = false := by
    intro j s hne
    rw [Bool.eq_false_iff]
    intro he
    exact hne ((Json.eqStr_iff j s).1 he)
  refine ⟨fun ty hop hty h1 h2 h3 h4 h5 => ?_, fun op hop h1 h2 h3 h4 => ?_,
    fun rest h => ?_⟩
  · have e1 : (Json.str "event").eqStr "ready" = false := rfl
    have e2 : (Json.str "event").eqStr "playerUpdate" = false := rfl
    have e3 : (Json.str "event").eqStr "stats" = false := rfl
    have e4 : (Json.str "event").eqStr "event" = true := rfl
    simp [process_frame, handle_frame, hop, hty, e1, e2, e3, e4,
      hf ty _ h1, hf ty _ h2, hf ty _ h3, hf ty _ h4, hf ty _ h5, pure, Except.pure]
  · simp [process_frame, handle_frame, hop,
      hf op _ h1, hf op _ h2, hf op _ h3, hf op _ h4, pure, Except.pure]
  · conv_lhs => rw [run_loop]
    rw [h]
    simp only [except_bind_ok]
    cases hr : run_loop c rest with
    | error e => rfl
    | ok r2 => simp [pure, Except.pure]

/-- Witness for C4: an `event` frame with unknown type `"Bogus"` and a frame
with unknown op `"nope"` each produce zero tasks, and the loop continues. -/
theorem unknown_tags_silently_dropped_witness :
    process_frame (Lavalink.init : Lavalink Nat)
        (Json.obj [("op", Json.str "event"), ("type", Json.str "Bogus")])
      = Except.ok (Lavalink.init, [])
    ∧ process_frame (Lavalink.init : Lavalink Nat)
        (Json.obj [("op", Json.str "nope")])
      = Except.ok (Lavalink.init, [])
    ∧ run_loop (Lavalink.init : Lavalink Nat)
        [Json.obj [("op", Json.str "nope")], Json.obj [("op", Json.str "x")]]
      = run_loop (Lavalink.init : Lavalink Nat) [Json.obj [("op", Json.str "x")]] := by
  have hne : ∀ s t : String, s.data ≠ t.data → Json.str s ≠ Json.str t := by
    intro s t hst h
    injection h with h2
    exact hst (congrArg String.data h2)
  refine ⟨?_, ?_, ?_⟩
  · exact (unknown_tags_silently_dropped (Lavalink.init : Lavalink Nat)
      (Json.obj [("op", Json.str "event"), ("type", Json.str "Bogus")])).1
      (Json.str "Bogus") rfl rfl
      (hne _ _ (by decide)) (hne _ _ (by decide)) (hne _ _ (by decide))
      (hne _ _ (by decide)) (hne _ _ (by decide))
  · exact (unknown_tags_silently_dropped (Lavalink.init : Lavalink Nat)
      (Json.obj [("op", Json.str "nope")])).2.1
      (Json.str "nope") rfl
      (hne _ _ (by decide)) (hne _ _ (by decide)) (hne _ _ (by decide))
      (hne _ _ (by decide))
  · exact (unknown_tags_silently_dropped (Lavalink.init : Lavalink Nat)
      (Json.obj [("op", Json.str "nope")])).2.2
      [Json.obj [("op", Json.str "x")]]
      ((unknown_tags_silently_dropped (Lavalink.init : Lavalink Nat)
        (Json.obj [("op", Json.str "nope")])).2.1
        (Json.str "nope") rfl
        (hne _ _ (by decide)) (hne _ _ (by decide)) (hne _ _ (by decide))
        (hne _ _ (by decide)))

/-- Claim C8: a well-formed JSON object frame lacking the `op` key makes the
dispatch loop raise `KeyError` and terminate (later frames stay
unprocessed), and so does a frame with `op == "event"` lacking the `type`
key — the dictionary accesses are unguarded, so such frames are not
silently dropped. -/
theorem missing_keys_raise_keyerror {α : Type} (c : Lavalink α)
    (fields : List (String × Json)) (frames : List Json) :
    (assocLookup fields "op" = none →
        run_loop c (Json.obj fields :: frames)
          = Except.error (PyError.keyError "op"))
    ∧ (assocLookup fields "op" = some (Json.str "event") →
        assocLookup fields "type" = none →
        run_loop c (Json.obj fields :: frames)
          = Except.error (PyError.keyError "type")) := by
  constructor
  · intro hop
    unfold run_loop
    simp [process_frame, handle_frame, Json.getItem, hop]
  · intro hop hty
    unfold run_loop
    simp [process_frame, handle_frame, Json.getItem, hop, hty, Json.eqStr]

/-- Witness for C8: `{"x": null}` kills the loop with `KeyError: 'op'`;
`{"op": "event"}` kills it with `KeyError: 'type'`, in both cases leaving a
following valid frame unprocessed. -/
theorem missing_keys_raise_keyerror_witness :
    run_loop (Lavalink.init : Lavalink Nat)
        [Json.obj [("x", Json.null)], Json.obj [("op", Json.str "ready")]]
      = Except.error (PyError.keyError "op")
    ∧ run_loop (Lavalink.init : Lavalink Nat)
        [Json.obj [("op", Json.str "event")], Json.obj [("op", Json.str "ready")]]
      = Except.error (PyError.keyError "type") :=
  ⟨(missing_keys_raise_keyerror (Lavalink.init : Lavalink Nat)
      [("x", Json.null)] [Json.obj [("op", Json.str "ready")]]).1 rfl,
   (missing_keys_raise_keyerror (Lavalink.init : Lavalink Nat)
      [("op", Json.str "event")] [Json.obj [("op", Json.str "ready")]]).2 rfl rfl⟩

/-- On a connected client the GET URL evaluates concretely (helper). -/
theorem get_url_eq {α : Type} (c : Lavalink α) (path : String) (ssl : Bool)
    (h : String) (p : IntOrStr) (hssl : c._is_ssl = some ssl)
    (hh : c._host = some h) (hp : c._port = some p) :
    get_url c path
      = Except.ok ((if ssl then "http" else "https") ++ "://" ++ h ++ ":"
          ++ p.toStr ++ "/v3/" ++ path ++ "&trace=true") := by
  simp [get_url, Lavalink.is_ssl, Lavalink.host, Lavalink.port, hssl, hh, hp,
    pure, Except.pure]

/-- On a connected client `get` is exactly the success/error branch on the
response the server gives at the built URL: the body on success, the
propagated `ClientResponseError` otherwise (helper). -/
theorem get_eq {α : Type} (c : Lavalink α) (path u : String)
    (server : String → HttpResponse) (sess : Session)
    (hs : c._session = some sess) (hu : get_url c path = Except.ok u) :
    get c path server
      = (if (server u).ok then Except.ok (server u).body
         else Except.error PyError.clientResponseError) := by
  unfold get
  simp only [Lavalink.session, hs, except_bind_ok, hu]
  cases hok : (server u).ok <;> simp [hok, pure, Except.pure]

/-- Counterexample for C1: on the concrete connected client
(`host="h"`, `port=80`, `isSsl=false`) the code builds the request URL
`https://h:80/v3/x&trace=true` for `get("x")`, not the claimed
`https://h:80/v3/x` — extra characters are appended to the path. -/
theorem get_url_appends_trace_counterexample :
    get_url (connect (Lavalink.init : Lavalink Nat) "h" (IntOrStr.int 80) "p" 1
        none false) "x"
      ≠ Except.ok "https://h:80/v3/x" := by
  intro hEq
  have h1 : get_url (connect (Lavalink.init : Lavalink Nat) "h" (IntOrStr.int 80)
      "p" 1 none false) "x" = Except.ok "https://h:80/v3/x&trace=true" := rfl
  rw [h1] at hEq
  exact absurd (Except.ok.inj hEq) (by decide)

/-- Claim C1 (amended): on every connected client, `get(p)` issues its
authenticated GET to `{scheme}://{host}:{port}/v3/{p}&trace=true` — the
source appends the query suffix `&trace=true` — where scheme is `http` when
`isSsl` is true and `https` otherwise; the call is resolved from the
response the server gives at exactly that URL. -/
theorem get_requests_trace_url {α : Type} (c : Lavalink α) (path : String)
    (server : String → HttpResponse) (ssl : Bool) (h : String) (p : IntOrStr)
    (sess : Session) (hssl : c._is_ssl = some ssl) (hh : c._host = some h)
    (hp : c._port = some p) (hs : c._session = some sess) :
    get_url c path
      = Except.ok ((if ssl then "http" else "https") ++ "://" ++ h ++ ":"
          ++ p.toStr ++ "/v3/" ++ path ++ "&trace=true")
    ∧ get c path server
      = (if (server ((if ssl then "http" else "https") ++ "://" ++ h ++ ":"
            ++ p.toStr ++ "/v3/" ++ path ++ "&trace=true")).ok then
          Except.ok (server ((if ssl then "http" else "https") ++ "://" ++ h
            ++ ":" ++ p.toStr ++ "/v3/" ++ path ++ "&trace=true")).body
        else
          Except.error PyError.clientResponseError) :=
  ⟨get_url_eq c path ssl h p hssl hh hp,
   get_eq c path _ server sess hs (get_url_eq c path ssl h p hssl hh hp)⟩

/-- Witness for C1 (amended) at the concrete connected client. -/
theorem get_requests_trace_url_witness :
    get_url (connect (Lavalink.init : Lavalink Nat) "h" (IntOrStr.int 80) "p" 1
        none false) "x"
      = Except.ok "https://h:80/v3/x&trace=true"
    ∧ get (connect (Lavalink.init : Lavalink Nat) "h" (IntOrStr.int 80) "p" 1
        none false) "x" (fun _ => ⟨true, Json.num 5⟩)
      = Except.ok (Json.num 5) :=
  ⟨(get_requests_trace_url
      (connect (Lavalink.init : Lavalink Nat) "h" (IntOrStr.int 80) "p" 1
        none false) "x" (fun _ => ⟨true, Json.num 5⟩) false "h"
      (IntOrStr.int 80)
      ⟨[("Authorization", "p"), ("User-Id", "1"),
        ("Client-Name", "lava.py/0.0.0")]⟩ rfl rfl rfl rfl).1,
   (get_requests_trace_url
      (connect (Lavalink.init : Lavalink Nat) "h" (IntOrStr.int 80) "p" 1
        none false) "x" (fun _ => ⟨true, Json.num 5⟩) false "h"
      (IntOrStr.int 80)
      ⟨[("Authorization", "p"), ("User-Id", "1"),
        ("Client-Name", "lava.py/0.0.0")]⟩ rfl rfl rfl rfl).2⟩

/-- Claim C6 (code bug): the claim states the code's evident intent — on a
non-success status, raise the domain error built from the decoded body —
but the source's `raise errors.LavalinkError.from_payload(data) from
res.raise_for_status()` evaluates the cause expression, and
`res.raise_for_status()` itself raises `ClientResponseError` on every
non-success status, so the constructed domain error (and with it the
decoded payload) is discarded and the caller sees the bare transport error
instead.  At the failing input — a connected client whose server answers a
non-success status with body `"oops"` — `get` yields
`ClientResponseError`, not `LavalinkError({"oops"})`; on a success status
it returns the decoded body as the claim says. -/
theorem get_discards_domain_error :
    get (connect (Lavalink.init : Lavalink Nat) "h" (IntOrStr.int 80) "p" 1
        none false) "x" (fun _ => ⟨false, Json.str "oops"⟩)
      = Except.error PyError.clientResponseError
    ∧ get (connect (Lavalink.init : Lavalink Nat) "h" (IntOrStr.int 80) "p" 1
        none false) "x" (fun _ => ⟨false, Json.str "oops"⟩)
      ≠ Except.error (PyError.lavalinkError
          (LavalinkError.from_payload (Json.str "oops")))
    ∧ get (connect (Lavalink.init : Lavalink Nat) "h" (IntOrStr.int 80) "p" 1
        none false) "x" (fun _ => ⟨true, Json.bool true⟩)
      = Except.ok (Json.bool true) := by
  refine ⟨rfl, ?_, rfl⟩
  intro h
  have h1 : get (connect (Lavalink.init : Lavalink Nat) "h" (IntOrStr.int 80)
      "p" 1 none false) "x" (fun _ => ⟨false, Json.str "oops"⟩)
      = Except.error PyError.clientResponseError := rfl
  rw [h1] at h
  exact PyError.noConfusion (Except.error.inj h)

/-- Decoding a list of raw player objects succeeds elementwise, in order
(helper). -/
theorem decode_players_ok (ps : List Json)
    (hps : ∀ q ∈ ps, ∃ fs, q = Json.obj fs) :
    decode_players ps = Except.ok (ps.map (fun q => (⟨q⟩ : Player))) := by
  induction ps with
  | nil => rfl
  | cons a as ih =>
    obtain ⟨fs, rfl⟩ := hps a (List.mem_cons_self _ _)
    simp [decode_players, Player.from_payload,
      ih (fun q hq => hps q (List.mem_cons_of_mem _ hq)), pure, Except.pure]

/-- Decoding fails outright when any element is not an object (helper). -/
theorem decode_players_error (ps : List Json) (q : Json) (hq : q ∈ ps)
    (hbad : ∀ fs, q ≠ Json.obj fs) :
    decode_players ps
      = Except.error (PyError.typeError "cannot decode Player from non-object") := by
  induction ps with
  | nil => cases hq
  | cons a as ih =>
    cases a with
    | obj fs =>
      have hq2 : q ∈ as := by
        rcases List.mem_cons.1 hq with rfl | h2
        · exact absurd rfl (hbad fs)
        · exact h2
      simp [decode_players, Player.from_payload, ih hq2]
    | null => simp [decode_players, Player.from_payload]
    | bool b => simp [decode_players, Player.from_payload]
    | num n => simp [decode_players, Player.from_payload]
    | str s => simp [decode_players, Player.from_payload]
    | arr xs => simp [decode_players, Player.from_payload]

/-- Counterexample for C7: on the concrete connected client, a success
response shaped `{"players": [{...}, {...}]}` does NOT yield two decoded
Players — the comprehension iterates the object's keys, so the decoder is
fed the key string `"players"` and the whole call fails. -/
theorem get_players_wrapped_counterexample :
    get_players (connect (Lavalink.init : Lavalink Nat) "h" (IntOrStr.int 80)
        "p" 1 none false) "abc"
      (fun _ => ⟨true, Json.obj [("players",
        Json.arr [Json.obj [], Json.obj []])]⟩)
      = Except.error (PyError.typeError "cannot decode Player from non-object") :=
  rfl

/-- Claim C7 (amended): `get_players(sessionId)` calls
`get("sessions/{sessionId}/players")` and decodes each element obtained by
iterating the returned JSON value itself: a success whose body is a
top-level array of player objects yields one decoded Player per object, in
server order; the whole call fails if `get` fails (with the
`ClientResponseError` that `get` actually propagates on a non-success
status) or if any iterated element fails to decode, with no partial
results.  (An object-shaped body such as `{"players": [...]}` is iterated
by its keys, so the nested player objects are not what reaches the
decoder.) -/
theorem get_players_maps_response {α : Type} (c : Lavalink α)
    (session_id : String) (server : String → HttpResponse) (sess : Session)
    (u : String) (hs : c._session = some sess)
    (hu : get_url c ("sessions/" ++ session_id ++ "/players") = Except.ok u) :
    (∀ ps, (server u).ok = true → (server u).body = Json.arr ps →
        (∀ q ∈ ps, ∃ fs, q = Json.obj fs) →
        get_players c session_id server
          = Except.ok (ps.map (fun q => (⟨q⟩ : Player))))
    ∧ ((server u).ok = false →
        get_players c session_id server
          = Except.error PyError.clientResponseError)
    ∧ (∀ ps q, (server u).ok = true → (server u).body = Json.arr ps →
        q ∈ ps → (∀ fs, q ≠ Json.obj fs) →
        get_players c session_id server
          = Except.error
              (PyError.typeError "cannot decode Player from non-object")) := by
  unfold get_players
  rw [get_eq c ("sessions/" ++ session_id ++ "/players") u server sess hs hu]
  refine ⟨fun ps hok hbody hobj => ?_, fun hok => ?_,
    fun ps q hok hbody hq hbad => ?_⟩
  · simp [hok, hbody, pyIter, decode_players_ok ps hobj]
  · simp [hok]
  · simp [hok, hbody, pyIter, decode_players_error ps q hq hbad]

/-- Witness for C7 (amended): a top-level array of two player objects yields
exactly those two Players in order. -/
theorem get_players_maps_response_witness :
    get_players (connect (Lavalink.init : Lavalink Nat) "h" (IntOrStr.int 80)
        "p" 1 none false) "abc"
      (fun _ => ⟨true, Json.arr [Json.obj [("guildId", Json.str "1")],
        Json.obj []]⟩)
      = Except.ok [⟨Json.obj [("guildId", Json.str "1")]⟩, ⟨Json.obj []⟩] := by
  have hw := (get_players_maps_response
    (connect (Lavalink.init : Lavalink Nat) "h" (IntOrStr.int 80) "p" 1
      none false) "abc"
    (fun _ => ⟨true, Json.arr [Json.obj [("guildId", Json.str "1")],
      Json.obj []]⟩)
    ⟨[("Authorization", "p"), ("User-Id", "1"),
      ("Client-Name", "lava.py/0.0.0")]⟩
    "https://h:80/v3/sessions/abc/players&trace=true" rfl rfl).1
    [Json.obj [("guildId", Json.str "1")], Json.obj []] rfl rfl
    (by
      intro q hq
      rcases List.mem_cons.1 hq with rfl | hq2
      · exact ⟨_, rfl⟩
      · rcases List.mem_cons.1 hq2 with rfl | hq3
        · exact ⟨_, rfl⟩
        · cases hq3)
  simpa using hw

end Lava
